import Mathlib

/-!
Shallow embedding of the announcement and auth routers of the
High School Management System backend
(src/backend/routers/announcements.py, src/backend/routers/auth.py).

Modelling conventions:
* MongoDB collections become association lists keyed by the string id
  (`_id`).  `find()` iterates in list order, `find_one`, `update_one`,
  `delete_one` act on the first matching entry.
* `datetime` values are modelled as `Int`; `datetime.fromisoformat` is an
  abstract parameter `parseISO : String → Option Int` (`none` = ValueError).
  ISO strings across the wire stay `String` and are compared with the
  lexicographic `String` order, as Python compares `str` values.
* `datetime.now()` calls become explicit parameters (`nowDT` for the one
  captured at the top of create, `createdAtIso` for the later
  `datetime.now().isoformat()`, `nowIso` for the one in the list handler).
* argon2 verification is an abstract parameter
  `verify : String → String → Bool` (mismatch = `false`).
* `HTTPException` aborts a handler; every handler returns the paired final
  database state, unchanged on the error paths.
* Python truthiness of an optional string (`if start_date:`) is
  `truthyOptStr`: `None` and the empty string are falsy.
-/

/-- A teacher credential document (`teachers_collection`); the `_id` is the
username and is kept as the association-list key. -/
structure Teacher where
  username : String
  display_name : String
  role : String
  password : String
deriving Repr, DecidableEq

/-- An announcement document as stored (`announcements_collection`); the
`_id` is the association-list key.  Fields may be missing from a raw
document, hence `Option`; the serializer supplies the defaults. -/
structure AnnouncementDoc where
  title : Option String
  message : Option String
  start_date : Option String
  expiration_date : Option String
  created_by : Option String
  created_at : Option String
deriving Repr, DecidableEq

/-- The JSON-serializable announcement produced by
`serialize_announcement`. -/
structure SerializedAnnouncement where
  id : String
  title : String
  message : String
  start_date : Option String
  expiration_date : Option String
  created_by : String
  created_at : String
deriving Repr, DecidableEq

/-- The success payload of login and check-session: exactly the three
public fields the handlers put in the response dict. -/
structure AuthResponse where
  username : String
  display_name : String
  role : String
deriving Repr, DecidableEq

/-- An `HTTPException(status_code=..., detail=...)`. -/
structure HTTPError where
  status_code : Nat
  detail : String
deriving Repr, DecidableEq

/-- The whole database visible to the two routers. -/
structure DB where
  teachers : List (String × Teacher)
  announcements : List (String × AnnouncementDoc)
deriving Repr, DecidableEq

/-- `collection.find_one(\x7b"_id": key\x7d)`: first entry with the key. -/
def findOne {α : Type} : List (String × α) → String → Option α
  | [], _ => none
  | (k, v) :: rest, key => if k == key then some v else findOne rest key

/-- `collection.update_one(\x7b"_id": key\x7d, \x7b"$set": ...\x7d)`:
rewrite the first entry with the key. -/
def updateOneList {α : Type} : List (String × α) → String → (α → α) → List (String × α)
  | [], _, _ => []
  | (k, v) :: rest, key, f =>
    if k == key then (k, f v) :: rest else (k, v) :: updateOneList rest key f

/-- `collection.delete_one(\x7b"_id": key\x7d)`: drop the first entry with
the key. -/
def deleteOneList {α : Type} : List (String × α) → String → List (String × α)
  | [], _ => []
  | (k, v) :: rest, key =>
    if k == key then rest else (k, v) :: deleteOneList rest key

/-- Python truthiness of an `Optional[str]`: `None` and `""` are falsy. -/
def truthyOptStr : Option String → Bool
  | none => false
  | some s => s != ""

/-- A character allowed in a hex ObjectId string. -/
def isObjIdChar (c : Char) : Bool :=
  c.isDigit || ('a' ≤ c && c ≤ 'f') || ('A' ≤ c && c ≤ 'F')

/-- Character-wise lower-casing of a string. -/
def strToLower (s : String) : String := ⟨s.data.map Char.toLower⟩

/-- `bson.ObjectId(s)` on a string: accepts exactly a 24-character hex
string and normalises it to lower case; anything else raises. -/
def objIdParse (s : String) : Option String :=
  if s.length == 24 && s.toList.all isObjIdChar then some (strToLower s) else none

/-- `serialize_announcement`: convert a stored document to the wire dict,
with `.get` defaults for the text fields and the id rendered as a string. -/
def serialize_announcement (id : String) (a : AnnouncementDoc) : SerializedAnnouncement :=
  { id := id
    title := a.title.getD ""
    message := a.message.getD ""
    start_date := a.start_date
    expiration_date := a.expiration_date
    created_by := a.created_by.getD ""
    created_at := a.created_at.getD "" }

/-- `validate_date_format`: parse an ISO date string or fail 400. -/
def validate_date_format (parseISO : String → Option Int)
    (date_string field_name : String) : Except HTTPError Int :=
  match parseISO date_string with
  | some d => Except.ok d
  | none => Except.error ⟨400, "Invalid " ++ field_name ++ " format"⟩

/-- The start-date branch of create/update: `if start_date:
validate_date_format(start_date, "start date")`. -/
def validate_start_date (parseISO : String → Option Int)
    (start_date : Option String) : Except HTTPError Unit :=
  if truthyOptStr start_date then
    match validate_date_format parseISO (start_date.getD "") "start date" with
    | Except.ok _ => Except.ok ()
    | Except.error e => Except.error e
  else Except.ok ()

/-- The `announcement` dict the create handler builds before inserting:
submitted fields plus server-assigned created_by and created_at. -/
def createdDoc (title message : String) (start_date : Option String)
    (expiration_date teacher_username createdAtIso : String) : AnnouncementDoc :=
  { title := some title
    message := some message
    start_date := start_date
    expiration_date := some expiration_date
    created_by := some teacher_username
    created_at := some createdAtIso }

/-- The `update_data` dict that the update handler applies with `$set`:
replaces exactly title, message, start_date and expiration_date. -/
def update_data (title message expiration_date : String)
    (start_date : Option String) (dd : AnnouncementDoc) : AnnouncementDoc :=
  { dd with title := some title
            message := some message
            start_date := start_date
            expiration_date := some expiration_date }

/-- The loop body of `get_announcements`: serialize every document, and
with `active_only` skip the ones whose truthy expiration is `< now` or
whose truthy start is `> now` (string comparisons). -/
def announcementsLoop (active_only : Bool) (nowIso : String) :
    List (String × AnnouncementDoc) → List SerializedAnnouncement
  | [] => []
  | (id, doc) :: rest =>
    let serialized := serialize_announcement id doc
    let acc := announcementsLoop active_only nowIso rest
    if active_only then
      if truthyOptStr serialized.expiration_date
          && decide (serialized.expiration_date.getD "" < nowIso) then acc
      else if truthyOptStr serialized.start_date
          && decide (nowIso < serialized.start_date.getD "") then acc
      else serialized :: acc
    else serialized :: acc

/-- `GET /announcements` (`get_announcements`): no authentication;
`nowIso` is `datetime.now().isoformat()` captured at the top. -/
def get_announcements (active_only : Bool) (nowIso : String) (db : DB) :
    Except HTTPError (List SerializedAnnouncement) × DB :=
  (Except.ok (announcementsLoop active_only nowIso db.announcements), db)

/-- `GET /announcements/all` (`get_all_announcements`): teacher existence
check, then every document serialized in store order. -/
def get_all_announcements (teacher_username : String) (db : DB) :
    Except HTTPError (List SerializedAnnouncement) × DB :=
  match findOne db.teachers teacher_username with
  | none => (Except.error ⟨401, "Authentication required"⟩, db)
  | some _ =>
    (Except.ok (db.announcements.map fun p => serialize_announcement p.1 p.2), db)

/-- `POST /announcements` (`create_announcement`).  `nowDT` is the single
`datetime.now()` captured first, `createdAtIso` the later
`datetime.now().isoformat()` stored in the record, `newId` the ObjectId
the store assigns on insert. -/
def create_announcement (title message expiration_date : String)
    (start_date : Option String) (teacher_username : String)
    (parseISO : String → Option Int) (nowDT : Int)
    (createdAtIso : String) (newId : String) (db : DB) :
    Except HTTPError SerializedAnnouncement × DB :=
  match findOne db.teachers teacher_username with
  | none => (Except.error ⟨401, "Authentication required"⟩, db)
  | some _ =>
  match validate_date_format parseISO expiration_date "expiration date" with
  | Except.error e => (Except.error e, db)
  | Except.ok exp_date =>
  if exp_date < nowDT then
    (Except.error ⟨400, "Expiration date must be in the future"⟩, db)
  else
  match validate_start_date parseISO start_date with
  | Except.error e => (Except.error e, db)
  | Except.ok _ =>
    let announcement : AnnouncementDoc :=
      createdDoc title message start_date expiration_date teacher_username
        createdAtIso
    (Except.ok (serialize_announcement newId announcement),
     { db with announcements := db.announcements ++ [(newId, announcement)] })

/-- `PUT /announcements/\x7bannouncement_id\x7d` (`update_announcement`). -/
def update_announcement (announcement_id : String)
    (title message expiration_date : String) (start_date : Option String)
    (teacher_username : String) (parseISO : String → Option Int) (db : DB) :
    Except HTTPError SerializedAnnouncement × DB :=
  match findOne db.teachers teacher_username with
  | none => (Except.error ⟨401, "Authentication required"⟩, db)
  | some _ =>
  match objIdParse announcement_id with
  | none => (Except.error ⟨400, "Invalid announcement ID"⟩, db)
  | some obj_id =>
  match findOne db.announcements obj_id with
  | none => (Except.error ⟨404, "Announcement not found"⟩, db)
  | some _existing =>
  match validate_date_format parseISO expiration_date "expiration date" with
  | Except.error e => (Except.error e, db)
  | Except.ok _ =>
  match validate_start_date parseISO start_date with
  | Except.error e => (Except.error e, db)
  | Except.ok _ =>
    let anns := updateOneList db.announcements obj_id
      (update_data title message expiration_date start_date)
    let db1 : DB := { db with announcements := anns }
    -- `update_one` matched_count: 1 when the filter matched, else 0
    if (findOne db.announcements obj_id).isNone then
      (Except.error ⟨500, "Failed to update announcement"⟩, db1)
    else
      match findOne anns obj_id with
      | some updated => (Except.ok (serialize_announcement obj_id updated), db1)
      -- unreachable: the re-fetch of the updated document cannot miss;
      -- a miss would crash the handler, surfacing as a 500
      | none => (Except.error ⟨500, "Failed to update announcement"⟩, db1)

/-- `DELETE /announcements/\x7bannouncement_id\x7d` (`delete_announcement`).
Returns the confirmation message. -/
def delete_announcement (announcement_id teacher_username : String) (db : DB) :
    Except HTTPError String × DB :=
  match findOne db.teachers teacher_username with
  | none => (Except.error ⟨401, "Authentication required"⟩, db)
  | some _ =>
  match objIdParse announcement_id with
  | none => (Except.error ⟨400, "Invalid announcement ID"⟩, db)
  | some obj_id =>
  match findOne db.announcements obj_id with
  | none => (Except.error ⟨404, "Announcement not found"⟩, db)
  | some _existing =>
    let anns := deleteOneList db.announcements obj_id
    let db1 : DB := { db with announcements := anns }
    -- `delete_one` deleted_count: 1 when the filter matched, else 0
    if (findOne db.announcements obj_id).isNone then
      (Except.error ⟨500, "Failed to delete announcement"⟩, db1)
    else
      (Except.ok "Announcement deleted successfully", db1)

/-- `verify_password`: argon2 verify, `VerifyMismatchError` = `false`.
The library call is the abstract parameter. -/
def verify_password (verify : String → String → Bool)
    (password hashed_password : String) : Bool :=
  verify password hashed_password

/-- `POST /auth/login` (`login`): uniform 401 whether the teacher is
absent or the password mismatches. -/
def login (username password : String) (verify : String → String → Bool)
    (db : DB) : Except HTTPError AuthResponse × DB :=
  match findOne db.teachers username with
  | none => (Except.error ⟨401, "Invalid username or password"⟩, db)
  | some teacher =>
    if !(verify_password verify password teacher.password) then
      (Except.error ⟨401, "Invalid username or password"⟩, db)
    else
      (Except.ok ⟨teacher.username, teacher.display_name, teacher.role⟩, db)

/-- `GET /auth/check-session` (`check_session`): username lookup only. -/
def check_session (username : String) (db : DB) :
    Except HTTPError AuthResponse × DB :=
  match findOne db.teachers username with
  | none => (Except.error ⟨404, "Teacher not found"⟩, db)
  | some teacher =>
    (Except.ok ⟨teacher.username, teacher.display_name, teacher.role⟩, db)

/-! ## Helper lemmas about the store operations -/

theorem empty_le_string (s : String) : ("" : String) ≤ s := by
  rw [String.le_iff_toList_le]
  exact List.nil_le

theorem findOne_eq_none_all {α : Type} (l : List (String × α)) (k : String)
    (h : findOne l k = none) : ∀ q ∈ l, (q.1 == k) = false := by
  induction l with
  | nil => intro q hq; cases hq
  | cons x rest ih =>
    intro q hq
    obtain ⟨xk, xv⟩ := x
    simp only [findOne] at h
    by_cases hk : (xk == k) = true
    · simp [hk] at h
    · rcases List.mem_cons.mp hq with rfl | hq2
      · simpa using hk
      · exact ih (by simpa [hk] using h) q hq2

theorem findOne_eq_some_decomp {α : Type} (l : List (String × α)) (k : String) (v : α)
    (h : findOne l k = some v) :
    ∃ pre post, l = pre ++ (k, v) :: post ∧ ∀ q ∈ pre, (q.1 == k) = false := by
  induction l with
  | nil => simp [findOne] at h
  | cons x rest ih =>
    obtain ⟨xk, xv⟩ := x
    simp only [findOne] at h
    by_cases hk : (xk == k) = true
    · refine ⟨[], rest, ?_, by simp⟩
      obtain rfl := eq_of_beq hk
      simp [hk] at h
      simp [h]
    · obtain ⟨pre, post, hsplit, hpre⟩ := ih (by simpa [hk] using h)
      refine ⟨(xk, xv) :: pre, post, by simp [hsplit], ?_⟩
      intro q hq
      rcases List.mem_cons.mp hq with rfl | hq2
      · simpa using hk
      · exact hpre q hq2

theorem findOne_prefix {α : Type} (pre post : List (String × α)) (k : String) (v : α)
    (hpre : ∀ q ∈ pre, (q.1 == k) = false) :
    findOne (pre ++ (k, v) :: post) k = some v := by
  induction pre with
  | nil => simp [findOne]
  | cons x rest ih =>
    obtain ⟨xk, xv⟩ := x
    have hx : (xk == k) = false := hpre (xk, xv) (List.mem_cons_self _ _)
    simp only [List.cons_append, findOne, hx]
    simp only [Bool.false_eq_true, if_false]
    exact ih fun q hq => hpre q (List.mem_cons_of_mem _ hq)

theorem findOne_append_none {α : Type} (l1 l2 : List (String × α)) (k : String)
    (h : findOne l1 k = none) : findOne (l1 ++ l2) k = findOne l2 k := by
  induction l1 with
  | nil => simp
  | cons x rest ih =>
    obtain ⟨xk, xv⟩ := x
    simp only [findOne] at h
    by_cases hk : (xk == k) = true
    · simp [hk] at h
    · simp only [List.cons_append, findOne, hk, Bool.false_eq_true, if_false]
      exact ih (by simpa [hk] using h)

theorem updateOneList_prefix {α : Type} (pre post : List (String × α)) (k : String)
    (v : α) (f : α → α) (hpre : ∀ q ∈ pre, (q.1 == k) = false) :
    updateOneList (pre ++ (k, v) :: post) k f = pre ++ (k, f v) :: post := by
  induction pre with
  | nil => simp [updateOneList]
  | cons x rest ih =>
    obtain ⟨xk, xv⟩ := x
    have hx : (xk == k) = false := hpre (xk, xv) (List.mem_cons_self _ _)
    simp only [List.cons_append, updateOneList, hx, Bool.false_eq_true, if_false,
      List.cons.injEq, true_and]
    exact ih fun q hq => hpre q (List.mem_cons_of_mem _ hq)

/-- With `active_only=False` the list handler serializes every record in
store order. -/
theorem announcementsLoop_false (nowIso : String)
    (l : List (String × AnnouncementDoc)) :
    announcementsLoop false nowIso l = l.map fun p => serialize_announcement p.1 p.2 := by
  induction l with
  | nil => rfl
  | cons x rest ih =>
    obtain ⟨id, doc⟩ := x
    simp [announcementsLoop, ih]

/-- The keep-condition of the `active_only` filter, on a serialized
record. -/
def activeKeep (nowIso : String) (s : SerializedAnnouncement) : Bool :=
  !(truthyOptStr s.expiration_date && decide (s.expiration_date.getD "" < nowIso))
    && !(truthyOptStr s.start_date && decide (nowIso < s.start_date.getD ""))

/-- With `active_only=True` the list handler is a filter of the serialized
records. -/
theorem announcementsLoop_true_eq_filter (nowIso : String)
    (l : List (String × AnnouncementDoc)) :
    announcementsLoop true nowIso l
      = (l.map fun p => serialize_announcement p.1 p.2).filter (activeKeep nowIso) := by
  induction l with
  | nil => rfl
  | cons x rest ih =>
    obtain ⟨id, doc⟩ := x
    simp only [announcementsLoop, List.map_cons, List.filter_cons, ih, activeKeep]
    split_ifs <;> simp_all
    rename_i h1 h2 h3
    obtain ⟨hs, hlt⟩ := h3 (by
      cases hx : truthyOptStr (serialize_announcement id doc).expiration_date with
      | false => exact Or.inl rfl
      | true => exact Or.inr (h1 hx))
    exact absurd hlt (not_lt.mpr (h2 hs))

/-! ## Concrete fixtures used by the witnesses -/

/-- A concrete teacher record. -/
def wTeacher : Teacher := ⟨"alice", "Alice A", "teacher", "argon2hash"⟩

/-- A concrete stored announcement. -/
def wDoc : AnnouncementDoc :=
  ⟨some "Title", some "Msg", none, some "2026-12-31T00:00:00",
   some "alice", some "2026-01-01T00:00:00"⟩

/-- A concrete database: one teacher, one announcement. -/
def wDB : DB :=
  { teachers := [("alice", wTeacher)]
    announcements := [("aaaaaaaaaaaaaaaaaaaaaaaa", wDoc)] }

/-- A concrete stand-in for `datetime.fromisoformat` on the few strings the
witnesses use. -/
def wParse : String → Option Int := fun s =>
  if s == "2026-12-31T00:00:00" then some 200
  else if s == "2026-01-01T00:00:00" then some 100
  else none

/-- A concrete stand-in for the argon2 verify call. -/
def wVerify : String → String → Bool := fun password hashed =>
  password == "pw" && hashed == "argon2hash"

/-! ## Per-handler preservation of the teacher store -/

theorem get_announcements_teachers_eq (ao : Bool) (nowIso : String) (db : DB) :
    (get_announcements ao nowIso db).2.teachers = db.teachers := rfl

theorem get_all_announcements_teachers_eq (u : String) (db : DB) :
    (get_all_announcements u db).2.teachers = db.teachers := by
  unfold get_all_announcements
  split <;> rfl

theorem create_announcement_teachers_eq (ti me ex : String) (sd : Option String)
    (u : String) (p : String → Option Int) (n : Int) (ca nid : String) (db : DB) :
    (create_announcement ti me ex sd u p n ca nid db).2.teachers = db.teachers := by
  unfold create_announcement
  split
  · rfl
  · split
    · rfl
    · split
      · rfl
      · split <;> rfl

theorem update_announcement_teachers_eq (aid ti me ex : String) (sd : Option String)
    (u : String) (p : String → Option Int) (db : DB) :
    (update_announcement aid ti me ex sd u p db).2.teachers = db.teachers := by
  unfold update_announcement
  repeat' split
  all_goals try rfl
  all_goals dsimp only
  all_goals split <;> rfl

theorem delete_announcement_teachers_eq (aid u : String) (db : DB) :
    (delete_announcement aid u db).2.teachers = db.teachers := by
  unfold delete_announcement
  repeat' split
  all_goals rfl


theorem login_teachers_eq (u pw : String) (v : String → String → Bool) (db : DB) :
    (login u pw v db).2.teachers = db.teachers := by
  unfold login
  split
  · rfl
  · split <;> rfl

theorem check_session_teachers_eq (u : String) (db : DB) :
    (check_session u db).2.teachers = db.teachers := by
  unfold check_session
  split <;> rfl

/-! ## Claim theorems -/

/-- C9: every operation of the subsystem — list active, list all, create,
update, delete, login, check-session — leaves the Teacher Store unchanged
for every input: the handlers only read teacher records. -/
theorem teachers_store_read_only :
    (∀ (ao : Bool) (nowIso : String) (db : DB),
      (get_announcements ao nowIso db).2.teachers = db.teachers)
    ∧ (∀ (u : String) (db : DB),
      (get_all_announcements u db).2.teachers = db.teachers)
    ∧ (∀ (ti me ex : String) (sd : Option String) (u : String)
        (p : String → Option Int) (n : Int) (ca nid : String) (db : DB),
      (create_announcement ti me ex sd u p n ca nid db).2.teachers = db.teachers)
    ∧ (∀ (aid ti me ex : String) (sd : Option String) (u : String)
        (p : String → Option Int) (db : DB),
      (update_announcement aid ti me ex sd u p db).2.teachers = db.teachers)
    ∧ (∀ (aid u : String) (db : DB),
      (delete_announcement aid u db).2.teachers = db.teachers)
    ∧ (∀ (u pw : String) (v : String → String → Bool) (db : DB),
      (login u pw v db).2.teachers = db.teachers)
    ∧ (∀ (u : String) (db : DB),
      (check_session u db).2.teachers = db.teachers) :=
  ⟨get_announcements_teachers_eq, get_all_announcements_teachers_eq,
   create_announcement_teachers_eq, update_announcement_teachers_eq,
   delete_announcement_teachers_eq, login_teachers_eq, check_session_teachers_eq⟩

/-- C3: a Create, Update or Delete request whose `teacher_username` is not
a key of the Teacher Store fails 401 Unauthorized and leaves the whole
database — in particular the Announcement Store — unchanged. -/
theorem mutators_unauthorized_before_mutation
    (u : String) (db : DB) (hu : findOne db.teachers u = none)
    (ti me ex : String) (sd : Option String) (p : String → Option Int)
    (n : Int) (ca nid aid : String) :
    create_announcement ti me ex sd u p n ca nid db
      = (Except.error ⟨401, "Authentication required"⟩, db)
    ∧ update_announcement aid ti me ex sd u p db
      = (Except.error ⟨401, "Authentication required"⟩, db)
    ∧ delete_announcement aid u db
      = (Except.error ⟨401, "Authentication required"⟩, db) := by
  refine ⟨?_, ?_, ?_⟩ <;> simp [create_announcement, update_announcement,
    delete_announcement, hu]

/-- Witness for C3 at a concrete database and unknown username. -/
theorem mutators_unauthorized_before_mutation_witness :
    create_announcement "T" "M" "2026-12-31T00:00:00" none "mallory" wParse 100
        "2026-01-01T00:00:00" "cccccccccccccccccccccccc" wDB
      = (Except.error ⟨401, "Authentication required"⟩, wDB)
    ∧ update_announcement "aaaaaaaaaaaaaaaaaaaaaaaa" "T" "M"
        "2026-12-31T00:00:00" none "mallory" wParse wDB
      = (Except.error ⟨401, "Authentication required"⟩, wDB)
    ∧ delete_announcement "aaaaaaaaaaaaaaaaaaaaaaaa" "mallory" wDB
      = (Except.error ⟨401, "Authentication required"⟩, wDB) :=
  mutators_unauthorized_before_mutation "mallory" wDB rfl "T" "M"
    "2026-12-31T00:00:00" none wParse 100 "2026-01-01T00:00:00"
    "cccccccccccccccccccccccc" "aaaaaaaaaaaaaaaaaaaaaaaa"

/-- C4: login fails 401 with the identical error value both when the
username is absent from the Teacher Store and when it exists but password
verification fails, so the two causes are indistinguishable. -/
theorem login_uniform_unauthorized (username password : String)
    (verify : String → String → Bool) (db : DB) :
    (findOne db.teachers username = none →
      login username password verify db
        = (Except.error ⟨401, "Invalid username or password"⟩, db))
    ∧ ∀ t, findOne db.teachers username = some t →
        verify_password verify password t.password = false →
        login username password verify db
          = (Except.error ⟨401, "Invalid username or password"⟩, db) := by
  constructor
  · intro h
    simp [login, h]
  · intro t h hv
    simp [login, h, hv]

/-- Witness for C4: unknown username and wrong password both produce the
same 401 response. -/
theorem login_uniform_unauthorized_witness :
    login "mallory" "pw" wVerify wDB
      = (Except.error ⟨401, "Invalid username or password"⟩, wDB)
    ∧ login "alice" "wrong" wVerify wDB
      = (Except.error ⟨401, "Invalid username or password"⟩, wDB) :=
  ⟨(login_uniform_unauthorized "mallory" "pw" wVerify wDB).1 rfl,
   (login_uniform_unauthorized "alice" "wrong" wVerify wDB).2 wTeacher rfl rfl⟩

/-- C7: a successful login and a successful check-session both return
exactly the username, display_name and role of the matching teacher
record — a payload that has no password field. -/
theorem auth_success_returns_public_fields (username password : String)
    (verify : String → String → Bool) (db : DB) (t : Teacher)
    (ht : findOne db.teachers username = some t) :
    (verify_password verify password t.password = true →
      (login username password verify db).1
        = Except.ok ⟨t.username, t.display_name, t.role⟩)
    ∧ (check_session username db).1
        = Except.ok ⟨t.username, t.display_name, t.role⟩ := by
  constructor
  · intro hv
    simp [login, ht, hv]
  · simp [check_session, ht]

/-- Witness for C7 at the concrete database. -/
theorem auth_success_returns_public_fields_witness :
    (login "alice" "pw" wVerify wDB).1
      = Except.ok ⟨"alice", "Alice A", "teacher"⟩
    ∧ (check_session "alice" wDB).1
      = Except.ok ⟨"alice", "Alice A", "teacher"⟩ :=
  ⟨(auth_success_returns_public_fields "alice" "pw" wVerify wDB wTeacher rfl).1 rfl,
   (auth_success_returns_public_fields "alice" "pw" wVerify wDB wTeacher rfl).2⟩

/-- C10: for every store state, `GET /announcements?active_only=false`
(no authentication) returns exactly the response of the authenticated
`GET /announcements/all`, same records, same serialization, same order. -/
theorem inactive_list_equals_authenticated_list_all (db : DB)
    (nowIso u : String) (t : Teacher) (ht : findOne db.teachers u = some t) :
    get_announcements false nowIso db = get_all_announcements u db := by
  simp [get_announcements, get_all_announcements, ht, announcementsLoop_false]

/-- Witness for C10 at the concrete database. -/
theorem inactive_list_equals_authenticated_list_all_witness :
    get_announcements false "2026-06-01T00:00:00" wDB
      = get_all_announcements "alice" wDB :=
  inactive_list_equals_authenticated_list_all wDB "2026-06-01T00:00:00"
    "alice" wTeacher rfl

/-- C5: with a valid teacher, Update and Delete fail 400 BadRequest on a
syntactically invalid announcement id, and 404 NotFound on a well-formed
id that no stored announcement has. -/
theorem update_delete_id_validation (aid u : String) (db : DB) (t : Teacher)
    (ht : findOne db.teachers u = some t)
    (ti me ex : String) (sd : Option String) (p : String → Option Int) :
    (objIdParse aid = none →
      update_announcement aid ti me ex sd u p db
        = (Except.error ⟨400, "Invalid announcement ID"⟩, db)
      ∧ delete_announcement aid u db
        = (Except.error ⟨400, "Invalid announcement ID"⟩, db))
    ∧ ∀ oid, objIdParse aid = some oid → findOne db.announcements oid = none →
        update_announcement aid ti me ex sd u p db
          = (Except.error ⟨404, "Announcement not found"⟩, db)
        ∧ delete_announcement aid u db
          = (Except.error ⟨404, "Announcement not found"⟩, db) := by
  constructor
  · intro h
    constructor <;>
      simp [update_announcement, delete_announcement, ht, h]
  · intro oid h1 h2
    constructor <;>
      simp [update_announcement, delete_announcement, ht, h1, h2]

/-- Witness for C5: a malformed id, then a well-formed absent id. -/
theorem update_delete_id_validation_witness :
    (update_announcement "not-an-id" "T" "M" "2026-12-31T00:00:00" none
        "alice" wParse wDB
      = (Except.error ⟨400, "Invalid announcement ID"⟩, wDB)
    ∧ delete_announcement "not-an-id" "alice" wDB
      = (Except.error ⟨400, "Invalid announcement ID"⟩, wDB))
    ∧ (update_announcement "bbbbbbbbbbbbbbbbbbbbbbbb" "T" "M"
        "2026-12-31T00:00:00" none "alice" wParse wDB
      = (Except.error ⟨404, "Announcement not found"⟩, wDB)
    ∧ delete_announcement "bbbbbbbbbbbbbbbbbbbbbbbb" "alice" wDB
      = (Except.error ⟨404, "Announcement not found"⟩, wDB)) :=
  ⟨(update_delete_id_validation "not-an-id" "alice" wDB wTeacher rfl "T" "M"
      "2026-12-31T00:00:00" none wParse).1 rfl,
   (update_delete_id_validation "bbbbbbbbbbbbbbbbbbbbbbbb" "alice" wDB wTeacher
      rfl "T" "M" "2026-12-31T00:00:00" none wParse).2
      "bbbbbbbbbbbbbbbbbbbbbbbb" rfl rfl⟩

/-- C2: with `active_only=true`, a stored announcement whose
expiration value is a real (nonempty) ISO string is listed exactly when
(start_date absent or ≤ now) and (expiration_date absent or ≥ now),
comparing ISO-8601 strings lexicographically against the rendered now. -/
theorem active_only_membership_iff (db : DB) (nowIso : String) (id : String)
    (doc : AnnouncementDoc) (out : List SerializedAnnouncement)
    (hmem : (id, doc) ∈ db.announcements)
    (hexp : doc.expiration_date ≠ some "")
    (hout : (get_announcements true nowIso db).1 = Except.ok out) :
    serialize_announcement id doc ∈ out ↔
      (doc.start_date = none ∨ ∃ s, doc.start_date = some s ∧ s ≤ nowIso)
      ∧ (doc.expiration_date = none ∨ ∃ e, doc.expiration_date = some e ∧ nowIso ≤ e) := by
  have hout2 : out = announcementsLoop true nowIso db.announcements := by
    simpa [get_announcements] using hout.symm
  subst hout2
  rw [announcementsLoop_true_eq_filter, List.mem_filter]
  have hm : serialize_announcement id doc
      ∈ db.announcements.map (fun q => serialize_announcement q.1 q.2) :=
    List.mem_map_of_mem _ hmem
  simp only [hm, true_and]
  cases hsd : doc.start_date with
  | none =>
    cases hed : doc.expiration_date with
    | none => simp [activeKeep, serialize_announcement, truthyOptStr, hsd, hed]
    | some e =>
      have he : e ≠ "" := fun h => hexp (by rw [hed, h])
      simp [activeKeep, serialize_announcement, truthyOptStr, hsd, hed, he, not_lt]
  | some s =>
    by_cases hs : s = ""
    · subst hs
      cases hed : doc.expiration_date with
      | none =>
        simp [activeKeep, serialize_announcement, truthyOptStr, hsd, hed,
          empty_le_string]
      | some e =>
        have he : e ≠ "" := fun h => hexp (by rw [hed, h])
        simp [activeKeep, serialize_announcement, truthyOptStr, hsd, hed, he,
          empty_le_string, not_lt]
    · cases hed : doc.expiration_date with
      | none =>
        simp [activeKeep, serialize_announcement, truthyOptStr, hsd, hed, hs,
          not_lt]
      | some e =>
        have he : e ≠ "" := fun h => hexp (by rw [hed, h])
        simp [activeKeep, serialize_announcement, truthyOptStr, hsd, hed, hs,
          he, not_lt]
        tauto

/-- Witness for C2 at the concrete database. -/
theorem active_only_membership_iff_witness :
    serialize_announcement "aaaaaaaaaaaaaaaaaaaaaaaa" wDoc
      ∈ announcementsLoop true "2026-06-01T00:00:00" wDB.announcements ↔
      (wDoc.start_date = none
        ∨ ∃ s, wDoc.start_date = some s ∧ s ≤ "2026-06-01T00:00:00")
      ∧ (wDoc.expiration_date = none
        ∨ ∃ e, wDoc.expiration_date = some e ∧ "2026-06-01T00:00:00" ≤ e) :=
  active_only_membership_iff wDB "2026-06-01T00:00:00" "aaaaaaaaaaaaaaaaaaaaaaaa"
    wDoc (announcementsLoop true "2026-06-01T00:00:00" wDB.announcements)
    (by decide) (by decide) rfl

/-- Date parser fixture for the create boundary: the submitted expiration
string parses to exactly the captured now value 100. -/
def cxParse : String → Option Int := fun s =>
  if s == "2026-01-01T00:00:00" then some 100 else none

/-- C1 counterexample: a create request whose parsed expiration_date
equals the captured now (both 100) succeeds, although the claim requires
it to fail with 400. -/
theorem create_expiration_eq_now_succeeds :
    cxParse "2026-01-01T00:00:00" = some 100
    ∧ (create_announcement "T" "M" "2026-01-01T00:00:00" none "alice" cxParse
        100 "2026-01-01T00:00:01" "cccccccccccccccccccccccc" wDB).1
      = Except.ok ⟨"cccccccccccccccccccccccc", "T", "M", none,
          some "2026-01-01T00:00:00", "alice", "2026-01-01T00:00:01"⟩ :=
  ⟨rfl, rfl⟩

/-- C1 (amended): with a valid teacher, parseable expiration_date and an
acceptable start_date, Create fails 400 exactly when the parsed expiration
is strictly before the captured now; an expiration greater than or equal
to now — including exactly equal — is accepted (the guard is
`exp_date < now`, so the future requirement is non-strict). -/
theorem create_expiration_check_is_non_strict
    (ti me ex : String) (sd : Option String) (u : String)
    (p : String → Option Int) (nowDT : Int) (ca nid : String) (db : DB)
    (t : Teacher) (e : Int)
    (ht : findOne db.teachers u = some t) (he : p ex = some e)
    (hsd : validate_start_date p sd = Except.ok ()) :
    (e < nowDT →
      create_announcement ti me ex sd u p nowDT ca nid db
        = (Except.error ⟨400, "Expiration date must be in the future"⟩, db))
    ∧ (nowDT ≤ e →
      create_announcement ti me ex sd u p nowDT ca nid db
        = (Except.ok (serialize_announcement nid (createdDoc ti me sd ex u ca)),
           { db with announcements :=
              db.announcements ++ [(nid, createdDoc ti me sd ex u ca)] })) := by
  constructor
  · intro h
    simp [create_announcement, validate_date_format, ht, he, h]
  · intro h
    have hnl : ¬ (e < nowDT) := not_lt.mpr h
    simp [create_announcement, validate_date_format, ht, he, hnl, hsd]

/-- Witness for the amended C1: a strictly past expiration fails 400. -/
theorem create_expiration_check_non_strict_witness :
    create_announcement "T" "M" "2026-01-01T00:00:00" none "alice" cxParse 101
        "2026-01-01T00:00:01" "cccccccccccccccccccccccc" wDB
      = (Except.error ⟨400, "Expiration date must be in the future"⟩, wDB) :=
  (create_expiration_check_is_non_strict "T" "M" "2026-01-01T00:00:00" none
    "alice" cxParse 101 "2026-01-01T00:00:01" "cccccccccccccccccccccccc" wDB
    wTeacher 100 rfl rfl rfl).1 (by decide)

/-- C6: a successful Update replaces exactly title, message, start_date and
expiration_date of the targeted record (start_date becoming the submitted
optional value), keeps its key, created_by and created_at, leaves the
teacher store and every other stored announcement untouched, and returns
the serialized post-update record. -/
theorem update_replaces_exactly_submitted_fields
    (aid ti me ex : String) (sd : Option String) (u : String)
    (p : String → Option Int) (db : DB) (t : Teacher) (oid : String)
    (doc : AnnouncementDoc) (d : Int)
    (ht : findOne db.teachers u = some t)
    (hid : objIdParse aid = some oid)
    (hdoc : findOne db.announcements oid = some doc)
    (hex : p ex = some d)
    (hsd : validate_start_date p sd = Except.ok ()) :
    update_announcement aid ti me ex sd u p db
      = (Except.ok (serialize_announcement oid (update_data ti me ex sd doc)),
         { db with announcements :=
            updateOneList db.announcements oid (update_data ti me ex sd) })
    ∧ ∃ pre post,
        db.announcements = pre ++ (oid, doc) :: post
        ∧ (∀ q ∈ pre, (q.1 == oid) = false)
        ∧ (update_announcement aid ti me ex sd u p db).2.announcements
            = pre ++ (oid, update_data ti me ex sd doc) :: post := by
  obtain ⟨pre, post, hsplit, hpre⟩ := findOne_eq_some_decomp _ _ _ hdoc
  have hupd : updateOneList db.announcements oid (update_data ti me ex sd)
      = pre ++ (oid, update_data ti me ex sd doc) :: post := by
    rw [hsplit]
    exact updateOneList_prefix pre post oid doc _ hpre
  have hfind2 : findOne (updateOneList db.announcements oid
        (update_data ti me ex sd)) oid
      = some (update_data ti me ex sd doc) := by
    rw [hupd]
    exact findOne_prefix pre post oid _ hpre
  have heq : update_announcement aid ti me ex sd u p db
      = (Except.ok (serialize_announcement oid (update_data ti me ex sd doc)),
         { db with announcements :=
            updateOneList db.announcements oid (update_data ti me ex sd) }) := by
    simp [update_announcement, ht, hid, hdoc, validate_date_format, hex, hsd,
      hfind2]
  refine ⟨heq, pre, post, hsplit, hpre, ?_⟩
  rw [heq]
  exact hupd

/-- Witness for C6 at the concrete database: the stored record's title,
message and dates are replaced, created_by and created_at survive. -/
theorem update_replaces_exactly_submitted_fields_witness :
    update_announcement "aaaaaaaaaaaaaaaaaaaaaaaa" "New title" "New msg"
        "2026-01-01T00:00:00" none "alice" wParse wDB
      = (Except.ok (serialize_announcement "aaaaaaaaaaaaaaaaaaaaaaaa"
          (update_data "New title" "New msg" "2026-01-01T00:00:00" none wDoc)),
         { wDB with announcements :=
            (updateOneList wDB.announcements "aaaaaaaaaaaaaaaaaaaaaaaa"
              (update_data "New title" "New msg" "2026-01-01T00:00:00" none)) })
    ∧ ∃ pre post,
        wDB.announcements = pre ++ ("aaaaaaaaaaaaaaaaaaaaaaaa", wDoc) :: post
        ∧ (∀ q ∈ pre, (q.1 == "aaaaaaaaaaaaaaaaaaaaaaaa") = false)
        ∧ (update_announcement "aaaaaaaaaaaaaaaaaaaaaaaa" "New title" "New msg"
            "2026-01-01T00:00:00" none "alice" wParse wDB).2.announcements
            = pre ++ ("aaaaaaaaaaaaaaaaaaaaaaaa",
                update_data "New title" "New msg" "2026-01-01T00:00:00" none wDoc)
              :: post :=
  update_replaces_exactly_submitted_fields "aaaaaaaaaaaaaaaaaaaaaaaa"
    "New title" "New msg" "2026-01-01T00:00:00" none "alice" wParse wDB
    wTeacher "aaaaaaaaaaaaaaaaaaaaaaaa" wDoc 100 rfl rfl rfl rfl rfl

/-- C8: create (succeeding), list-all, update (succeeding), list-all, all
with a valid teacher: the first listing contains the record with the
created field values, and the second contains it with the updated values
and no longer with the original ones. -/
theorem create_update_list_roundtrip
    (db : DB) (u : String) (t : Teacher) (p : String → Option Int)
    (nowDT e1 d2 : Int) (ca nid : String)
    (ti1 me1 ex1 : String) (sd1 : Option String)
    (ti2 me2 ex2 : String) (sd2 : Option String)
    (ht : findOne db.teachers u = some t)
    (he1 : p ex1 = some e1) (hnow : nowDT ≤ e1)
    (hsd1 : validate_start_date p sd1 = Except.ok ())
    (he2 : p ex2 = some d2)
    (hsd2 : validate_start_date p sd2 = Except.ok ())
    (hfresh : findOne db.announcements nid = none)
    (hoid : objIdParse nid = some nid)
    (hti : ti2 ≠ ti1) :
    ∃ db1 db2 l1 l2,
      create_announcement ti1 me1 ex1 sd1 u p nowDT ca nid db
        = (Except.ok ⟨nid, ti1, me1, sd1, some ex1, u, ca⟩, db1)
      ∧ get_all_announcements u db1 = (Except.ok l1, db1)
      ∧ (⟨nid, ti1, me1, sd1, some ex1, u, ca⟩ : SerializedAnnouncement) ∈ l1
      ∧ update_announcement nid ti2 me2 ex2 sd2 u p db1
        = (Except.ok ⟨nid, ti2, me2, sd2, some ex2, u, ca⟩, db2)
      ∧ get_all_announcements u db2 = (Except.ok l2, db2)
      ∧ (⟨nid, ti2, me2, sd2, some ex2, u, ca⟩ : SerializedAnnouncement) ∈ l2
      ∧ (⟨nid, ti1, me1, sd1, some ex1, u, ca⟩ : SerializedAnnouncement) ∉ l2 := by
  have hnl : ¬ (e1 < nowDT) := not_lt.mpr hnow
  have hpre : ∀ q ∈ db.announcements, (q.1 == nid) = false :=
    findOne_eq_none_all _ _ hfresh
  have hcreate : create_announcement ti1 me1 ex1 sd1 u p nowDT ca nid db
      = (Except.ok ⟨nid, ti1, me1, sd1, some ex1, u, ca⟩,
         { db with announcements := db.announcements
            ++ [(nid, createdDoc ti1 me1 sd1 ex1 u ca)] }) := by
    simp [create_announcement, validate_date_format, ht, he1, hnl, hsd1,
      serialize_announcement, createdDoc]
  have hlist1 : get_all_announcements u
      { db with announcements := db.announcements
         ++ [(nid, createdDoc ti1 me1 sd1 ex1 u ca)] }
      = (Except.ok (List.map
          (fun q : String × AnnouncementDoc => serialize_announcement q.1 q.2)
          (db.announcements ++ [(nid, createdDoc ti1 me1 sd1 ex1 u ca)])),
         { db with announcements := db.announcements
            ++ [(nid, createdDoc ti1 me1 sd1 ex1 u ca)] }) := by
    simp [get_all_announcements, ht]
  have hmem1 : (nid, createdDoc ti1 me1 sd1 ex1 u ca)
      ∈ db.announcements ++ [(nid, createdDoc ti1 me1 sd1 ex1 u ca)] := by
    simp
  have hm1 : (⟨nid, ti1, me1, sd1, some ex1, u, ca⟩ : SerializedAnnouncement)
      ∈ List.map
          (fun q : String × AnnouncementDoc => serialize_announcement q.1 q.2)
          (db.announcements ++ [(nid, createdDoc ti1 me1 sd1 ex1 u ca)]) :=
    List.mem_map_of_mem _ hmem1
  have hfind1 : findOne
      (db.announcements ++ [(nid, createdDoc ti1 me1 sd1 ex1 u ca)]) nid
      = some (createdDoc ti1 me1 sd1 ex1 u ca) := by
    rw [findOne_append_none _ _ _ hfresh]
    simp [findOne]
  have hupd : updateOneList
      (db.announcements ++ [(nid, createdDoc ti1 me1 sd1 ex1 u ca)]) nid
      (update_data ti2 me2 ex2 sd2)
      = db.announcements ++ [(nid, createdDoc ti2 me2 sd2 ex2 u ca)] := by
    have h0 := updateOneList_prefix db.announcements [] nid
      (createdDoc ti1 me1 sd1 ex1 u ca) (update_data ti2 me2 ex2 sd2) hpre
    simpa [update_data, createdDoc] using h0
  have hfind2 : findOne
      (db.announcements ++ [(nid, createdDoc ti2 me2 sd2 ex2 u ca)]) nid
      = some (createdDoc ti2 me2 sd2 ex2 u ca) := by
    rw [findOne_append_none _ _ _ hfresh]
    simp [findOne]
  have hupdate : update_announcement nid ti2 me2 ex2 sd2 u p
      { db with announcements := db.announcements
         ++ [(nid, createdDoc ti1 me1 sd1 ex1 u ca)] }
      = (Except.ok ⟨nid, ti2, me2, sd2, some ex2, u, ca⟩,
         { db with announcements := db.announcements
            ++ [(nid, createdDoc ti2 me2 sd2 ex2 u ca)] }) := by
    have hser2 : serialize_announcement nid (createdDoc ti2 me2 sd2 ex2 u ca)
        = (⟨nid, ti2, me2, sd2, some ex2, u, ca⟩ : SerializedAnnouncement) := rfl
    simp [update_announcement, ht, hoid, hfind1, validate_date_format, he2,
      hsd2, hupd, hfind2, hser2]
  have hlist2 : get_all_announcements u
      { db with announcements := db.announcements
         ++ [(nid, createdDoc ti2 me2 sd2 ex2 u ca)] }
      = (Except.ok (List.map
          (fun q : String × AnnouncementDoc => serialize_announcement q.1 q.2)
          (db.announcements ++ [(nid, createdDoc ti2 me2 sd2 ex2 u ca)])),
         { db with announcements := db.announcements
            ++ [(nid, createdDoc ti2 me2 sd2 ex2 u ca)] }) := by
    simp [get_all_announcements, ht]
  have hmem2 : (nid, createdDoc ti2 me2 sd2 ex2 u ca)
      ∈ db.announcements ++ [(nid, createdDoc ti2 me2 sd2 ex2 u ca)] := by
    simp
  have hm2 : (⟨nid, ti2, me2, sd2, some ex2, u, ca⟩ : SerializedAnnouncement)
      ∈ List.map
          (fun q : String × AnnouncementDoc => serialize_announcement q.1 q.2)
          (db.announcements ++ [(nid, createdDoc ti2 me2 sd2 ex2 u ca)]) :=
    List.mem_map_of_mem _ hmem2
  have hnm : (⟨nid, ti1, me1, sd1, some ex1, u, ca⟩ : SerializedAnnouncement)
      ∉ List.map
          (fun q : String × AnnouncementDoc => serialize_announcement q.1 q.2)
          (db.announcements ++ [(nid, createdDoc ti2 me2 sd2 ex2 u ca)]) := by
    intro hmem
    rw [List.mem_map] at hmem
    obtain ⟨q, hq, hser⟩ := hmem
    rcases List.mem_append.mp hq with hq1 | hq2
    · have hqid : q.1 = nid := congrArg SerializedAnnouncement.id hser
      have hb := hpre q hq1
      rw [hqid] at hb
      simp at hb
    · have hq2b : q = (nid, createdDoc ti2 me2 sd2 ex2 u ca) := by
        simpa using hq2
      subst hq2b
      have hteq : ti2 = ti1 := congrArg SerializedAnnouncement.title hser
      exact hti hteq
  exact ⟨_, _, _, _, hcreate, hlist1, hm1, hupdate, hlist2, hm2, hnm⟩

/-- Witness for C8 at the concrete database. -/
theorem create_update_list_roundtrip_witness :
    ∃ db1 db2 l1 l2,
      create_announcement "A" "B" "2026-12-31T00:00:00" none "alice" wParse 100
          "2026-01-01T00:00:00" "dddddddddddddddddddddddd" wDB
        = (Except.ok ⟨"dddddddddddddddddddddddd", "A", "B", none,
            some "2026-12-31T00:00:00", "alice", "2026-01-01T00:00:00"⟩, db1)
      ∧ get_all_announcements "alice" db1 = (Except.ok l1, db1)
      ∧ (⟨"dddddddddddddddddddddddd", "A", "B", none,
          some "2026-12-31T00:00:00", "alice",
          "2026-01-01T00:00:00"⟩ : SerializedAnnouncement) ∈ l1
      ∧ update_announcement "dddddddddddddddddddddddd" "C" "D"
            "2026-01-01T00:00:00" none "alice" wParse db1
        = (Except.ok ⟨"dddddddddddddddddddddddd", "C", "D", none,
            some "2026-01-01T00:00:00", "alice", "2026-01-01T00:00:00"⟩, db2)
      ∧ get_all_announcements "alice" db2 = (Except.ok l2, db2)
      ∧ (⟨"dddddddddddddddddddddddd", "C", "D", none,
          some "2026-01-01T00:00:00", "alice",
          "2026-01-01T00:00:00"⟩ : SerializedAnnouncement) ∈ l2
      ∧ (⟨"dddddddddddddddddddddddd", "A", "B", none,
          some "2026-12-31T00:00:00", "alice",
          "2026-01-01T00:00:00"⟩ : SerializedAnnouncement) ∉ l2 :=
  create_update_list_roundtrip wDB "alice" wTeacher wParse 100 200 100
    "2026-01-01T00:00:00" "dddddddddddddddddddddddd" "A" "B"
    "2026-12-31T00:00:00" none "C" "D" "2026-01-01T00:00:00" none
    rfl rfl (by decide) rfl rfl rfl rfl rfl (by decide)
